import Mathlib

/-!
Shallow embedding of the analytics engine of `analysis_core.py` (power-system
measurement analysis): data model, station grouping, per-station statistics,
standards compliance, power-quality indices, circuit / reactive-correction
metrics and fault analysis, together with theorems settling the specification
claims.

Numeric columns are embedded as rationals (the concrete data of the program);
derived quantities that the program computes with `sqrt` / `arccos` / `tan` /
complex magnitude live in `ℝ`.  A pandas `NaN` result is embedded as `none` of
an `Option` type, and a missing `first_fault` / `last_fault` entry likewise.
Timestamps are embedded as integers (an ordered instant).
-/

namespace PSAMP

/-- One measurement record: a row of the measurement table
(`timestamp`, `station_id` and the five numeric fields). -/
structure Row where
  timestamp : Int
  station_id : String
  voltage_pu : ℚ
  current_pu : ℚ
  real_power_mw : ℚ
  reactive_power_mvar : ℚ
  power_factor : ℚ
deriving Repr, DecidableEq

/-- The `GridStandards` frozen dataclass of `analysis_core.py`. -/
structure GridStandards where
  voltage_min : ℚ
  voltage_max : ℚ
  voltage_fault_min : ℚ
  voltage_fault_max : ℚ
  current_max : ℚ
  power_factor_min : ℚ
  power_factor_fault : ℚ
  power_factor_target : ℚ
deriving Repr, DecidableEq

/-- The default field values of `GridStandards`
(0.95, 1.05, 0.90, 1.10, 120.0, 0.90, 0.80, 0.95). -/
def defaultStandards : GridStandards :=
  ⟨mkRat 95 100, mkRat 105 100, mkRat 90 100, mkRat 110 100, 120,
    mkRat 90 100, mkRat 80 100, mkRat 95 100⟩

/-! ## Station grouping primitive (`df.groupby("station_id")`)

`groupby` yields one nonempty group per distinct `station_id` value present in
the table, each group keeping the relative row order of the input. -/

/-- The distinct station identifiers of a table (the `groupby` keys; pandas
iterates them in sorted order, the embedding in first-appearance order — the
set of keys and the groups themselves coincide). -/
def stationIds (df : List Row) : List String :=
  (df.map Row.station_id).dedup

/-- The rows of one station, in input order (the group of `groupby`). -/
def stationGroup (df : List Row) (st : String) : List Row :=
  df.filter (fun r => r.station_id = st)

/-! ## Aggregation helpers (pandas `mean` / `median` / `std` semantics) -/

/-- Mean of a rational column (pandas `mean` on a nonempty group). -/
def qmean (l : List ℚ) : ℚ :=
  l.sum / l.length

/-- Mean of a real-valued column. -/
noncomputable def rmean (l : List ℝ) : ℝ :=
  l.sum / l.length

/-- pandas `mean`: `NaN` (here `none`) on an empty column, else the mean. -/
def qmeanOpt (l : List ℚ) : Option ℚ :=
  if l.isEmpty then none else some (qmean l)

/-- pandas `median`: `NaN` on an empty column, otherwise the middle element of
the sorted column (mean of the two middle elements for an even length). -/
def qmedianOpt (l : List ℚ) : Option ℚ :=
  if l.isEmpty then none
  else
    some (
      if l.length % 2 = 1 then
        (l.insertionSort (· ≤ ·)).getD (l.length / 2) 0
      else
        ((l.insertionSort (· ≤ ·)).getD (l.length / 2 - 1) 0 +
          (l.insertionSort (· ≤ ·)).getD (l.length / 2) 0) / 2)

/-- pandas sample standard deviation (`std`, `ddof = 1`): `NaN` (here `none`)
for fewer than two samples, else `sqrt (Σ (x - mean)² / (n - 1))`. -/
noncomputable def rsampleStdOpt (l : List ℝ) : Option ℝ :=
  if l.length ≤ 1 then none
  else some (Real.sqrt ((l.map (fun x => (x - rmean l) ^ 2)).sum / (l.length - 1)))

/-- Sample standard deviation of a rational column. -/
noncomputable def qsampleStdOpt (l : List ℚ) : Option ℝ :=
  rsampleStdOpt (l.map (fun x : ℚ => (x : ℝ)))

/-! ## `calculate_basic_statistics` -/

/-- One row of the statistics table: mean / median / sample standard deviation
of each of the five measured fields (the flattened `agg` columns). -/
structure StatRow where
  station_id : String
  voltage_pu_mean : Option ℚ
  voltage_pu_median : Option ℚ
  voltage_pu_std : Option ℝ
  current_pu_mean : Option ℚ
  current_pu_median : Option ℚ
  current_pu_std : Option ℝ
  real_power_mw_mean : Option ℚ
  real_power_mw_median : Option ℚ
  real_power_mw_std : Option ℝ
  reactive_power_mvar_mean : Option ℚ
  reactive_power_mvar_median : Option ℚ
  reactive_power_mvar_std : Option ℝ
  power_factor_mean : Option ℚ
  power_factor_median : Option ℚ
  power_factor_std : Option ℝ

/-- The statistics row of one station group. -/
noncomputable def statRow (g : List Row) (st : String) : StatRow where
  station_id := st
  voltage_pu_mean := qmeanOpt (g.map Row.voltage_pu)
  voltage_pu_median := qmedianOpt (g.map Row.voltage_pu)
  voltage_pu_std := qsampleStdOpt (g.map Row.voltage_pu)
  current_pu_mean := qmeanOpt (g.map Row.current_pu)
  current_pu_median := qmedianOpt (g.map Row.current_pu)
  current_pu_std := qsampleStdOpt (g.map Row.current_pu)
  real_power_mw_mean := qmeanOpt (g.map Row.real_power_mw)
  real_power_mw_median := qmedianOpt (g.map Row.real_power_mw)
  real_power_mw_std := qsampleStdOpt (g.map Row.real_power_mw)
  reactive_power_mvar_mean := qmeanOpt (g.map Row.reactive_power_mvar)
  reactive_power_mvar_median := qmedianOpt (g.map Row.reactive_power_mvar)
  reactive_power_mvar_std := qsampleStdOpt (g.map Row.reactive_power_mvar)
  power_factor_mean := qmeanOpt (g.map Row.power_factor)
  power_factor_median := qmedianOpt (g.map Row.power_factor)
  power_factor_std := qsampleStdOpt (g.map Row.power_factor)

/-- `calculate_basic_statistics`: per-station mean, median and standard
deviation for the five measured fields. -/
noncomputable def calculate_basic_statistics (df : List Row) : List StatRow :=
  (stationIds df).map (fun st => statRow (stationGroup df st) st)

/-! ## `compare_to_standards` -/

/-- Percentage of rows of a group satisfying a predicate
(`boolean_series.mean() * 100`). -/
def pctOf (g : List Row) (p : Row → Bool) : ℚ :=
  ((g.countP p : ℚ) / (g.length : ℚ)) * 100

/-- One row of the compliance table. -/
structure ComplianceRow where
  station_id : String
  voltage_within_pct : ℚ
  power_factor_within_pct : ℚ
  current_within_pct : ℚ
  voltage_min_observed : Option ℚ
  voltage_max_observed : Option ℚ
  current_max_observed : Option ℚ
  power_factor_min_observed : Option ℚ
deriving Repr, DecidableEq

/-- The compliance row of one station group: `between` is inclusive on both
ends, power factor compliance is `≥ power_factor_min`, current compliance is
`≤ current_max`; extrema are the observed column min / max. -/
def complianceRow (s : GridStandards) (g : List Row) (st : String) : ComplianceRow where
  station_id := st
  voltage_within_pct :=
    pctOf g (fun r => s.voltage_min ≤ r.voltage_pu ∧ r.voltage_pu ≤ s.voltage_max)
  power_factor_within_pct := pctOf g (fun r => s.power_factor_min ≤ r.power_factor)
  current_within_pct := pctOf g (fun r => r.current_pu ≤ s.current_max)
  voltage_min_observed := (g.map Row.voltage_pu).min?
  voltage_max_observed := (g.map Row.voltage_pu).max?
  current_max_observed := (g.map Row.current_pu).max?
  power_factor_min_observed := (g.map Row.power_factor).min?

/-- `compare_to_standards`: per-station compliance percentages and observed
extrema. -/
def compare_to_standards (df : List Row) (s : GridStandards) : List ComplianceRow :=
  (stationIds df).map (fun st => complianceRow s (stationGroup df st) st)

/-! ## `calculate_power_quality_indices` -/

/-- The per-sample complex power `real + j·reactive`. -/
noncomputable def complexPower (r : Row) : ℂ :=
  (r.real_power_mw : ℝ) + (r.reactive_power_mvar : ℝ) * Complex.I

/-- Per-sample apparent power `np.abs(complex_power)`. -/
noncomputable def apparentPower (r : Row) : ℝ :=
  Complex.abs (complexPower r)

/-- Per-sample phase angle in degrees, `np.degrees(np.angle(complex_power))`. -/
noncomputable def phaseAngleDeg (r : Row) : ℝ :=
  (complexPower r).arg * (180 / Real.pi)

/-- One row of the power-quality table. -/
structure QualityRow where
  station_id : String
  avg_power_factor : ℚ
  min_power_factor : Option ℚ
  low_power_factor_pct : ℚ
  very_low_power_factor_pct : ℚ
  avg_voltage_deviation : ℚ
  voltage_std : Option ℝ
  avg_apparent_power_mva : ℝ
  avg_phase_angle_deg : ℝ
  phase_angle_std_deg : Option ℝ
  peak_demand_mw : Option ℚ
  avg_demand_mw : ℚ
  avg_reactive_power_mvar : ℚ
  load_factor : Option ℚ
  kvar_to_kw_ratio : Option ℚ

/-- The quality-index row of one station group: the aggregates of the
`grouped.agg(...)` call plus the two guarded ratio columns (`replace(0, nan)`
before dividing is embedded as a `none` result on a zero denominator). -/
noncomputable def qualityRow (s : GridStandards) (g : List Row) (st : String) : QualityRow where
  station_id := st
  avg_power_factor := qmean (g.map Row.power_factor)
  min_power_factor := (g.map Row.power_factor).min?
  low_power_factor_pct := pctOf g (fun r => r.power_factor < s.power_factor_min)
  very_low_power_factor_pct := pctOf g (fun r => r.power_factor < s.power_factor_fault)
  avg_voltage_deviation := qmean (g.map (fun r => |r.voltage_pu - 1|))
  voltage_std := qsampleStdOpt (g.map Row.voltage_pu)
  avg_apparent_power_mva := rmean (g.map apparentPower)
  avg_phase_angle_deg := rmean (g.map phaseAngleDeg)
  phase_angle_std_deg := rsampleStdOpt (g.map phaseAngleDeg)
  peak_demand_mw := (g.map Row.real_power_mw).max?
  avg_demand_mw := qmean (g.map Row.real_power_mw)
  avg_reactive_power_mvar := qmean (g.map Row.reactive_power_mvar)
  load_factor :=
    match (g.map Row.real_power_mw).max? with
    | none => none
    | some peak => if peak = 0 then none else some (qmean (g.map Row.real_power_mw) / peak)
  kvar_to_kw_ratio :=
    if qmean (g.map Row.real_power_mw) = 0 then none
    else some (qmean (g.map Row.reactive_power_mvar) / qmean (g.map Row.real_power_mw))

/-- `calculate_power_quality_indices`: the per-station quality-index table. -/
noncomputable def calculate_power_quality_indices (df : List Row) (s : GridStandards) :
    List QualityRow :=
  (stationIds df).map (fun st => qualityRow s (stationGroup df st) st)

/-! ## `calculate_circuit_metrics` -/

/-- `np.clip(x, lo, hi)`. -/
def clip (x lo hi : ℚ) : ℚ :=
  max lo (min hi x)

/-- The clamped target power factor, `np.clip(standards.power_factor_target, 0.0, 1.0)`. -/
def targetPf (s : GridStandards) : ℚ :=
  clip s.power_factor_target 0 1

/-- The target phase angle in radians:
`np.arccos(np.clip(target_pf, -1.0, 1.0)) if 0.0 < target_pf <= 1.0 else 0.0`. -/
noncomputable def targetAngleRad (s : GridStandards) : ℝ :=
  if 0 < targetPf s ∧ targetPf s ≤ 1 then
    Real.arccos (max (-1) (min 1 ((targetPf s : ℝ))))
  else 0

/-- The target phase angle in degrees, `np.degrees(target_angle_rad)`. -/
noncomputable def targetAngleDeg (s : GridStandards) : ℝ :=
  targetAngleRad s * (180 / Real.pi)

/-- The station's average complex power, `complex_samples.mean()`. -/
noncomputable def avgComplexPower (g : List Row) : ℂ :=
  (g.map complexPower).sum / (g.length : ℂ)

/-- One row of the circuit-metrics table. -/
structure CircuitRow where
  station_id : String
  voltage_rms_pu : ℝ
  current_rms_pu : ℝ
  avg_real_power_mw : ℝ
  avg_reactive_power_mvar : ℝ
  existing_power_factor : Option ℝ
  existing_phase_angle_deg : ℝ
  target_power_factor : ℚ
  target_phase_angle_deg : ℝ
  required_reactive_correction_mvar : ℝ
  required_capacitor_bank_kvar : ℝ
  expected_power_factor : Option ℝ

/-- The circuit-metrics row of one station group, following the loop body of
`calculate_circuit_metrics` (a power factor obtained from a zero apparent
power is `NaN`, embedded as `none`). -/
noncomputable def circuitRow (s : GridStandards) (g : List Row) (st : String) : CircuitRow :=
  let avg_real : ℝ := (avgComplexPower g).re
  let avg_reactive : ℝ := (avgComplexPower g).im
  let apparent_mag : ℝ := Complex.abs (avgComplexPower g)
  let target_reactive : ℝ :=
    if avg_real ≠ 0 then avg_real * Real.tan (targetAngleRad s) else 0
  let reactive_correction : ℝ := max 0 (avg_reactive - target_reactive)
  let expected_reactive : ℝ := avg_reactive - reactive_correction
  let expected_apparent : ℝ := Real.sqrt (avg_real ^ 2 + expected_reactive ^ 2)
  { station_id := st
    voltage_rms_pu := Real.sqrt ((qmean ((g.map Row.voltage_pu).map (fun x => x ^ 2)) : ℚ) : ℝ)
    current_rms_pu := Real.sqrt ((qmean ((g.map Row.current_pu).map (fun x => x ^ 2)) : ℚ) : ℝ)
    avg_real_power_mw := avg_real
    avg_reactive_power_mvar := avg_reactive
    existing_power_factor :=
      if apparent_mag > 0 then some (avg_real / apparent_mag) else none
    existing_phase_angle_deg := (avgComplexPower g).arg * (180 / Real.pi)
    target_power_factor := targetPf s
    target_phase_angle_deg := targetAngleDeg s
    required_reactive_correction_mvar := reactive_correction
    required_capacitor_bank_kvar := reactive_correction * 1000
    expected_power_factor :=
      if expected_apparent > 0 then some (avg_real / expected_apparent) else none }

/-- `calculate_circuit_metrics`: the per-station circuit-metrics table
(the loop skips an empty group). -/
noncomputable def calculate_circuit_metrics (df : List Row) (s : GridStandards) :
    List CircuitRow :=
  (stationIds df).filterMap (fun st =>
    if (stationGroup df st).isEmpty then none
    else some (circuitRow s (stationGroup df st) st))

/-! ## `perform_fault_analysis` -/

/-- Voltage-sag condition: `voltage_pu < voltage_fault_min`. -/
def isVoltageSag (s : GridStandards) (r : Row) : Bool :=
  r.voltage_pu < s.voltage_fault_min

/-- Voltage-swell condition: `voltage_pu > voltage_fault_max`. -/
def isVoltageSwell (s : GridStandards) (r : Row) : Bool :=
  r.voltage_pu > s.voltage_fault_max

/-- Over-current condition: `current_pu > current_max`. -/
def isOverCurrent (s : GridStandards) (r : Row) : Bool :=
  r.current_pu > s.current_max

/-- Very-low-power-factor condition: `power_factor < power_factor_fault`. -/
def isVeryLowPf (s : GridStandards) (r : Row) : Bool :=
  r.power_factor < s.power_factor_fault

/-- The concatenated timestamps of the four filtered fault subsets
(`pd.concat(fault_frames)`; a sample may appear under several conditions). -/
def faultTimestamps (s : GridStandards) (g : List Row) : List Int :=
  ((g.filter (isVoltageSag s)) ++ (g.filter (isVoltageSwell s)) ++
    (g.filter (isOverCurrent s)) ++ (g.filter (isVeryLowPf s))).map Row.timestamp

/-- One row of the fault table.  `first_fault` / `last_fault` are `none`
("absent") when no fault window exists. -/
structure FaultRow where
  station_id : String
  voltage_sag_events : Nat
  voltage_swell_events : Nat
  over_current_events : Nat
  very_low_pf_events : Nat
  first_fault : Option Int
  last_fault : Option Int
deriving Repr, DecidableEq

/-- The fault row of one station group: the four event counts and the
minimum / maximum timestamp over the combined fault windows. -/
def faultRow (s : GridStandards) (g : List Row) (st : String) : FaultRow where
  station_id := st
  voltage_sag_events := (g.filter (isVoltageSag s)).length
  voltage_swell_events := (g.filter (isVoltageSwell s)).length
  over_current_events := (g.filter (isOverCurrent s)).length
  very_low_pf_events := (g.filter (isVeryLowPf s)).length
  first_fault := (faultTimestamps s g).min?
  last_fault := (faultTimestamps s g).max?

/-- `perform_fault_analysis`: the per-station fault table. -/
def perform_fault_analysis (df : List Row) (s : GridStandards) : List FaultRow :=
  (stationIds df).map (fun st => faultRow s (stationGroup df st) st)

/-- A row triggering at least one of the four fault conditions. -/
def anyFault (s : GridStandards) (r : Row) : Bool :=
  isVoltageSag s r || isVoltageSwell s r || isOverCurrent s r || isVeryLowPf s r

/-! ## Measurement ingestion (`load_power_data`) -/

/-- The error with which measurement ingestion fails. -/
inductive MalformedInputError where
  | missingColumns
  | unparseableTimestamp
deriving Repr, DecidableEq

/-- Modelled from the spec: one raw delimited-text record before timestamp
parsing; the timestamp-text parsing itself is performed by the external table
library (`pd.read_csv(..., parse_dates=["timestamp"])`), not by code of this
repository, so a record carries `none` when its timestamp text is
unparseable. -/
structure RawRecord where
  timestamp : Option Int
  station_id : String
  voltage_pu : ℚ
  current_pu : ℚ
  real_power_mw : ℚ
  reactive_power_mvar : ℚ
  power_factor : ℚ
deriving Repr, DecidableEq

/-- Modelled from the spec: a raw input table; `hasRequiredColumns` records
whether the required column headers are present in the delimited text. -/
structure RawInput where
  hasRequiredColumns : Bool
  records : List RawRecord
deriving Repr, DecidableEq

/-- A raw record whose timestamp parsed becomes a measurement row. -/
def parseRecord (r : RawRecord) : Option Row :=
  match r.timestamp with
  | none => none
  | some t =>
    some ⟨t, r.station_id, r.voltage_pu, r.current_pu, r.real_power_mw,
      r.reactive_power_mvar, r.power_factor⟩

/-- `df.sort_values("timestamp")`: sort the table ascending by timestamp. -/
def sortByTimestamp (df : List Row) : List Row :=
  df.insertionSort (fun a b => a.timestamp ≤ b.timestamp)

/-- Ascending-by-timestamp order of a measurement table. -/
def sortedByTs (df : List Row) : Prop :=
  List.Pairwise (fun a b : Row => a.timestamp ≤ b.timestamp) df

/-- Modelled from the spec: `load_power_data` fails with a
`MalformedInputError` when required columns are absent or some timestamp is
unparseable, performs no other validation, and returns the measurement table
sorted ascending by timestamp. -/
def load_power_data (input : RawInput) : Except MalformedInputError (List Row) :=
  if input.hasRequiredColumns = false then .error .missingColumns
  else if input.records.all (fun r => r.timestamp.isSome) then
    .ok (sortByTimestamp (input.records.filterMap parseRecord))
  else .error .unparseableTimestamp

/-! ## Concrete example data for the witnesses -/

/-- A one-row station at unity power factor (100 MW, 0 MVAr). -/
def exDfUnity : List Row :=
  [⟨0, "A", 1, 50, 100, 0, 1⟩]

/-- A one-row station whose measured `power_factor` column (1) disagrees with
the power factor derived from its real / reactive powers (3 MW, 4 MVAr). -/
def exDfSkew : List Row :=
  [⟨0, "A", 1, 50, 3, 4, 1⟩]

/-- A two-row station with one voltage-sag sample (0.8 pu at time 5). -/
def exDfFault : List Row :=
  [⟨5, "A", mkRat 8 10, 50, 10, 0, 1⟩, ⟨7, "A", 1, 50, 10, 0, 1⟩]

/-- A two-station table (one compliant row for "A", one faulty row for "B"). -/
def exDfTwo : List Row :=
  [⟨0, "A", 1, 50, 100, 0, mkRat 97 100⟩, ⟨3, "B", mkRat 8 10, 130, 10, 20, mkRat 1 2⟩]

/-- A raw input whose two records arrive out of timestamp order. -/
def exRaw : RawInput :=
  ⟨true, [⟨some 5, "A", 1, 50, 100, 0, 1⟩, ⟨some 2, "B", 1, 60, 90, 10, 1⟩]⟩

/-- The rows of `exRaw` after parsing and sorting. -/
def exLoaded : List Row :=
  [⟨2, "B", 1, 60, 90, 10, 1⟩, ⟨5, "A", 1, 50, 100, 0, 1⟩]

/-- The default standards with `current_max` raised to 200. -/
def exStandardsHighCurrent : GridStandards :=
  ⟨mkRat 95 100, mkRat 105 100, mkRat 90 100, mkRat 110 100, 200,
    mkRat 90 100, mkRat 80 100, mkRat 95 100⟩

/-! ## Helper lemmas -/

theorem mem_stationIds {df : List Row} {st : String} :
    st ∈ stationIds df ↔ ∃ r ∈ df, r.station_id = st := by
  simp [stationIds, List.mem_dedup, List.mem_map]

theorem mem_stationGroup {df : List Row} {st : String} {r : Row} :
    r ∈ stationGroup df st ↔ r ∈ df ∧ r.station_id = st := by
  simp [stationGroup, List.mem_filter]

theorem stationGroup_ne_nil {df : List Row} {st : String} (h : st ∈ stationIds df) :
    stationGroup df st ≠ [] := by
  rcases mem_stationIds.mp h with ⟨r, hr, hst⟩
  intro hnil
  have : r ∈ stationGroup df st := mem_stationGroup.mpr ⟨hr, hst⟩
  simp [hnil] at this

theorem stationGroup_length_pos {df : List Row} {st : String} (h : st ∈ stationIds df) :
    0 < (stationGroup df st).length :=
  List.length_pos.mpr (stationGroup_ne_nil h)

theorem min?_eq_some_iff_lin {α : Type} [LinearOrder α] {l : List α} {a : α} :
    l.min? = some a ↔ a ∈ l ∧ ∀ b ∈ l, a ≤ b :=
  @List.min?_eq_some_iff α _ _ _ ⟨fun h h' => le_antisymm h h'⟩ (fun x => le_refl x)
    (fun x y => min_choice x y) (fun _ _ _ => le_min_iff) _

theorem max?_eq_some_iff_lin {α : Type} [LinearOrder α] {l : List α} {a : α} :
    l.max? = some a ↔ a ∈ l ∧ ∀ b ∈ l, b ≤ a :=
  @List.max?_eq_some_iff α _ _ _ ⟨fun h h' => le_antisymm h h'⟩ (fun x => le_refl x)
    (fun x y => max_choice x y) (fun _ _ _ => max_le_iff) _

theorem sum_map_complexPower (g : List Row) :
    (g.map complexPower).sum =
      (((g.map Row.real_power_mw).sum : ℚ) : ℝ) +
        (((g.map Row.reactive_power_mvar).sum : ℚ) : ℝ) * Complex.I := by
  induction g with
  | nil => simp
  | cons r g ih =>
    simp only [List.map_cons, List.sum_cons, ih, complexPower]
    push_cast
    ring

theorem avgComplexPower_re (g : List Row) :
    (avgComplexPower g).re = ((qmean (g.map Row.real_power_mw) : ℚ) : ℝ) := by
  unfold avgComplexPower qmean
  rw [sum_map_complexPower,
    show ((g.length : ℕ) : ℂ) = (((g.length : ℕ) : ℝ) : ℂ) by push_cast; ring,
    Complex.div_ofReal_re]
  push_cast
  simp

theorem avgComplexPower_im (g : List Row) :
    (avgComplexPower g).im = ((qmean (g.map Row.reactive_power_mvar) : ℚ) : ℝ) := by
  unfold avgComplexPower qmean
  rw [sum_map_complexPower,
    show ((g.length : ℕ) : ℂ) = (((g.length : ℕ) : ℝ) : ℂ) by push_cast; ring,
    Complex.div_ofReal_im]
  push_cast
  simp

theorem avgComplexPower_eq (g : List Row) :
    avgComplexPower g =
      ((qmean (g.map Row.real_power_mw) : ℚ) : ℝ) +
        ((qmean (g.map Row.reactive_power_mvar) : ℚ) : ℝ) * Complex.I := by
  conv_lhs => rw [← Complex.re_add_im (avgComplexPower g)]
  rw [avgComplexPower_re, avgComplexPower_im]

theorem abs_avgComplexPower (g : List Row) :
    Complex.abs (avgComplexPower g) =
      Real.sqrt (((qmean (g.map Row.real_power_mw) : ℚ) : ℝ) ^ 2 +
        ((qmean (g.map Row.reactive_power_mvar) : ℚ) : ℝ) ^ 2) := by
  rw [Complex.abs_apply, Complex.normSq_apply, avgComplexPower_re, avgComplexPower_im]
  ring_nf

theorem faultTimestamps_eq_nil_iff {s : GridStandards} {g : List Row} :
    faultTimestamps s g = [] ↔ ∀ r ∈ g, anyFault s r = false := by
  simp only [faultTimestamps, List.map_eq_nil_iff, List.append_eq_nil, List.filter_eq_nil_iff,
    anyFault, Bool.or_eq_false_iff]
  constructor
  · rintro ⟨⟨⟨h1, h2⟩, h3⟩, h4⟩ r hr
    exact ⟨⟨⟨Bool.eq_false_iff.mpr (h1 r hr), Bool.eq_false_iff.mpr (h2 r hr)⟩,
      Bool.eq_false_iff.mpr (h3 r hr)⟩, Bool.eq_false_iff.mpr (h4 r hr)⟩
  · intro h
    exact ⟨⟨⟨fun r hr => Bool.eq_false_iff.mp (h r hr).1.1.1,
      fun r hr => Bool.eq_false_iff.mp (h r hr).1.1.2⟩,
      fun r hr => Bool.eq_false_iff.mp (h r hr).1.2⟩,
      fun r hr => Bool.eq_false_iff.mp (h r hr).2⟩

theorem mem_faultTimestamps {s : GridStandards} {g : List Row} {t : Int} :
    t ∈ faultTimestamps s g ↔ ∃ r ∈ g, anyFault s r = true ∧ r.timestamp = t := by
  simp only [faultTimestamps, List.mem_map, List.mem_append, List.mem_filter, anyFault,
    Bool.or_eq_true]
  constructor
  · rintro ⟨r, hmem, ht⟩
    rcases hmem with (((⟨hr, hc⟩ | ⟨hr, hc⟩) | ⟨hr, hc⟩) | ⟨hr, hc⟩) <;>
      exact ⟨r, hr, by simp [hc], ht⟩
  · rintro ⟨r, hr, hc, ht⟩
    rcases hc with (((hc | hc) | hc) | hc)
    · exact ⟨r, Or.inl (Or.inl (Or.inl ⟨hr, hc⟩)), ht⟩
    · exact ⟨r, Or.inl (Or.inl (Or.inr ⟨hr, hc⟩)), ht⟩
    · exact ⟨r, Or.inl (Or.inr ⟨hr, hc⟩), ht⟩
    · exact ⟨r, Or.inr ⟨hr, hc⟩, ht⟩

theorem length_faultTimestamps (s : GridStandards) (g : List Row) :
    (faultTimestamps s g).length =
      (g.filter (isVoltageSag s)).length + (g.filter (isVoltageSwell s)).length +
        (g.filter (isOverCurrent s)).length + (g.filter (isVeryLowPf s)).length := by
  simp [faultTimestamps]
  ring

theorem circuitRow_station_id (s : GridStandards) (g : List Row) (st : String) :
    (circuitRow s g st).station_id = st := rfl

theorem circuitRow_avg_real (s : GridStandards) (g : List Row) (st : String) :
    (circuitRow s g st).avg_real_power_mw = (avgComplexPower g).re := rfl

theorem circuitRow_avg_reactive (s : GridStandards) (g : List Row) (st : String) :
    (circuitRow s g st).avg_reactive_power_mvar = (avgComplexPower g).im := rfl

theorem circuitRow_target_pf (s : GridStandards) (g : List Row) (st : String) :
    (circuitRow s g st).target_power_factor = targetPf s := rfl

theorem circuitRow_target_angle (s : GridStandards) (g : List Row) (st : String) :
    (circuitRow s g st).target_phase_angle_deg = targetAngleDeg s := rfl

theorem circuitRow_phase (s : GridStandards) (g : List Row) (st : String) :
    (circuitRow s g st).existing_phase_angle_deg =
      (avgComplexPower g).arg * (180 / Real.pi) := rfl

theorem circuitRow_required (s : GridStandards) (g : List Row) (st : String) :
    (circuitRow s g st).required_reactive_correction_mvar =
      max 0 ((avgComplexPower g).im -
        if (avgComplexPower g).re ≠ 0 then
          (avgComplexPower g).re * Real.tan (targetAngleRad s)
        else 0) := rfl

theorem circuitRow_existing (s : GridStandards) (g : List Row) (st : String) :
    (circuitRow s g st).existing_power_factor =
      if Complex.abs (avgComplexPower g) > 0 then
        some ((avgComplexPower g).re / Complex.abs (avgComplexPower g))
      else none := rfl

theorem circuitRow_expected (s : GridStandards) (g : List Row) (st : String) :
    (circuitRow s g st).expected_power_factor =
      if Real.sqrt ((avgComplexPower g).re ^ 2 +
          ((avgComplexPower g).im -
            max 0 ((avgComplexPower g).im -
              if (avgComplexPower g).re ≠ 0 then
                (avgComplexPower g).re * Real.tan (targetAngleRad s)
              else 0)) ^ 2) > 0 then
        some ((avgComplexPower g).re /
          Real.sqrt ((avgComplexPower g).re ^ 2 +
            ((avgComplexPower g).im -
              max 0 ((avgComplexPower g).im -
                if (avgComplexPower g).re ≠ 0 then
                  (avgComplexPower g).re * Real.tan (targetAngleRad s)
                else 0)) ^ 2))
      else none := rfl

theorem mem_calculate_circuit_metrics {df : List Row} {s : GridStandards} {row : CircuitRow} :
    row ∈ calculate_circuit_metrics df s ↔
      ∃ st ∈ stationIds df, row = circuitRow s (stationGroup df st) st := by
  unfold calculate_circuit_metrics
  rw [List.mem_filterMap]
  constructor
  · rintro ⟨st, hst, heq⟩
    by_cases hemp : (stationGroup df st).isEmpty
    · rw [if_pos hemp] at heq
      cases heq
    · rw [if_neg hemp] at heq
      exact ⟨st, hst, (Option.some.inj heq).symm⟩
  · rintro ⟨st, hst, rfl⟩
    refine ⟨st, hst, if_neg (fun h => stationGroup_ne_nil hst (List.isEmpty_iff.mp h))⟩

theorem targetPf_eq {s : GridStandards} (h0 : 0 < s.power_factor_target)
    (h1 : s.power_factor_target ≤ 1) :
    targetPf s = s.power_factor_target := by
  unfold targetPf clip
  rw [min_eq_right h1, max_eq_right h0.le]

theorem targetAngleRad_eq {s : GridStandards} (h0 : 0 < s.power_factor_target)
    (h1 : s.power_factor_target ≤ 1) :
    targetAngleRad s = Real.arccos ((s.power_factor_target : ℝ)) := by
  have h0' : (0 : ℝ) < ((s.power_factor_target : ℚ) : ℝ) := by exact_mod_cast h0
  have h1' : ((s.power_factor_target : ℚ) : ℝ) ≤ 1 := by exact_mod_cast h1
  unfold targetAngleRad
  simp only [targetPf_eq h0 h1]
  rw [if_pos ⟨h0, h1⟩, min_eq_right h1', max_eq_right (by linarith)]

/-- C1: for every station and every target power factor in (0,1], the
required reactive correction reported by `calculate_circuit_metrics` equals
`max 0 (average reactive power - average real power * tan (arccos target))`,
hence is never negative, and a station whose average reactive power is
already at or below the target reactive power gets a correction of exactly 0
with `expected_power_factor` equal to `existing_power_factor`. -/
theorem c1_reactive_correction (df : List Row) (s : GridStandards)
    (h0 : 0 < s.power_factor_target) (h1 : s.power_factor_target ≤ 1)
    (row : CircuitRow) (hrow : row ∈ calculate_circuit_metrics df s) :
    row.required_reactive_correction_mvar =
      max 0 (((qmean ((stationGroup df row.station_id).map Row.reactive_power_mvar) : ℚ) : ℝ) -
        ((qmean ((stationGroup df row.station_id).map Row.real_power_mw) : ℚ) : ℝ) *
          Real.tan (Real.arccos ((s.power_factor_target : ℚ) : ℝ))) ∧
    0 ≤ row.required_reactive_correction_mvar ∧
    (((qmean ((stationGroup df row.station_id).map Row.reactive_power_mvar) : ℚ) : ℝ) ≤
        ((qmean ((stationGroup df row.station_id).map Row.real_power_mw) : ℚ) : ℝ) *
          Real.tan (Real.arccos ((s.power_factor_target : ℚ) : ℝ)) →
      row.required_reactive_correction_mvar = 0 ∧
      row.expected_power_factor = row.existing_power_factor) := by
  rcases mem_calculate_circuit_metrics.mp hrow with ⟨st, hst, rfl⟩
  simp only [circuitRow_station_id]
  set g := stationGroup df st with hg
  set P : ℝ := ((qmean (g.map Row.real_power_mw) : ℚ) : ℝ) with hP
  set Q : ℝ := ((qmean (g.map Row.reactive_power_mvar) : ℚ) : ℝ) with hQ
  have hre := avgComplexPower_re g
  have him := avgComplexPower_im g
  have hrad := targetAngleRad_eq h0 h1
  have habs := abs_avgComplexPower g
  have hreq : (circuitRow s g st).required_reactive_correction_mvar =
      max 0 (Q - P * Real.tan (Real.arccos ((s.power_factor_target : ℚ) : ℝ))) := by
    rw [circuitRow_required, hre, him, hrad]
    by_cases hP0 : P = 0
    · have hq : qmean (g.map Row.real_power_mw) = 0 := by
        rw [hP] at hP0
        exact_mod_cast hP0
      simp [hq, hP0]
    · rw [if_pos hP0]
  refine ⟨hreq, ?_, ?_⟩
  · rw [circuitRow_required]
    exact le_max_left _ _
  · intro h
    have hcor : (circuitRow s g st).required_reactive_correction_mvar = 0 := by
      rw [hreq]
      exact max_eq_left (sub_nonpos.mpr h)
    refine ⟨hcor, ?_⟩
    have hmax : max 0 ((avgComplexPower g).im -
        if (avgComplexPower g).re ≠ 0 then
          (avgComplexPower g).re * Real.tan (targetAngleRad s)
        else 0) = 0 := by
      rw [← circuitRow_required s g st]
      exact hcor
    rw [circuitRow_expected, circuitRow_existing, hmax, habs, hre, him]
    norm_num

/-- Witness for C1 at a one-row unity-power-factor station and the default
standards (target power factor 0.95). -/
theorem c1_reactive_correction_witness :
    (0 : ℚ) < defaultStandards.power_factor_target ∧
    defaultStandards.power_factor_target ≤ 1 ∧
    0 ≤ (circuitRow defaultStandards (stationGroup exDfUnity "A")
      "A").required_reactive_correction_mvar :=
  ⟨by decide, by decide,
    (c1_reactive_correction exDfUnity defaultStandards (by decide) (by decide) _
      (mem_calculate_circuit_metrics.mpr ⟨"A", by decide, rfl⟩)).2.1⟩

/-- C10: `target_power_factor` and `target_phase_angle_deg` are computed from
the standards alone, so every row of the circuit-metrics table carries the
same two values, independent of the measurement data. -/
theorem c10_target_constant (df : List Row) (s : GridStandards) (row : CircuitRow)
    (hrow : row ∈ calculate_circuit_metrics df s) :
    row.target_power_factor = targetPf s ∧
    row.target_phase_angle_deg = targetAngleDeg s ∧
    ∀ (df₂ : List Row) (row₂ : CircuitRow), row₂ ∈ calculate_circuit_metrics df₂ s →
      row₂.target_power_factor = row.target_power_factor ∧
      row₂.target_phase_angle_deg = row.target_phase_angle_deg := by
  rcases mem_calculate_circuit_metrics.mp hrow with ⟨st, hst, rfl⟩
  refine ⟨circuitRow_target_pf s _ st, circuitRow_target_angle s _ st, ?_⟩
  intro df₂ row₂ h₂
  rcases mem_calculate_circuit_metrics.mp h₂ with ⟨st₂, hst₂, rfl⟩
  rw [circuitRow_target_pf, circuitRow_target_pf, circuitRow_target_angle,
    circuitRow_target_angle]
  exact ⟨rfl, rfl⟩

/-- Witness for C10 at a concrete one-station table. -/
theorem c10_target_constant_witness :
    (circuitRow defaultStandards (stationGroup exDfUnity "A") "A").target_power_factor =
      targetPf defaultStandards :=
  (c10_target_constant exDfUnity defaultStandards _
    (mem_calculate_circuit_metrics.mpr ⟨"A", by decide, rfl⟩)).1

/-- C2: each station's `existing_power_factor` and `existing_phase_angle_deg`
come from the single complex value formed from the mean real and mean
reactive power (average-then-combine), with the power factor equal to the
mean real power over the magnitude of that value, undefined (`none`, the
`NaN` embedding) on a zero magnitude; and this value is in general not the
mean of the per-sample `power_factor` column aggregated by
`calculate_power_quality_indices`, as a concrete station shows. -/
theorem c2_existing_power_factor (df : List Row) (s : GridStandards) (row : CircuitRow)
    (hrow : row ∈ calculate_circuit_metrics df s) :
    (row.avg_real_power_mw =
        ((qmean ((stationGroup df row.station_id).map Row.real_power_mw) : ℚ) : ℝ) ∧
      row.avg_reactive_power_mvar =
        ((qmean ((stationGroup df row.station_id).map Row.reactive_power_mvar) : ℚ) : ℝ) ∧
      row.existing_power_factor =
        (if Real.sqrt (row.avg_real_power_mw ^ 2 + row.avg_reactive_power_mvar ^ 2) = 0 then
          none
        else
          some (row.avg_real_power_mw /
            Real.sqrt (row.avg_real_power_mw ^ 2 + row.avg_reactive_power_mvar ^ 2))) ∧
      row.existing_phase_angle_deg =
        Complex.arg ((row.avg_real_power_mw : ℂ) + (row.avg_reactive_power_mvar : ℂ) *
          Complex.I) * (180 / Real.pi)) ∧
    ∀ crow ∈ calculate_circuit_metrics exDfSkew defaultStandards,
      ∀ qrow ∈ calculate_power_quality_indices exDfSkew defaultStandards,
        crow.existing_power_factor ≠ some ((qrow.avg_power_factor : ℚ) : ℝ) := by
  constructor
  · rcases mem_calculate_circuit_metrics.mp hrow with ⟨st, hst, rfl⟩
    simp only [circuitRow_station_id, circuitRow_avg_real, circuitRow_avg_reactive,
      avgComplexPower_re, avgComplexPower_im]
    refine ⟨trivial, trivial, ?_, ?_⟩
    · rw [circuitRow_existing, abs_avgComplexPower]
      set M : ℝ := Real.sqrt
        (((qmean ((stationGroup df st).map Row.real_power_mw) : ℚ) : ℝ) ^ 2 +
          ((qmean ((stationGroup df st).map Row.reactive_power_mvar) : ℚ) : ℝ) ^ 2) with hM
      by_cases h0 : M = 0
      · rw [if_pos h0, if_neg (by rw [h0]; exact lt_irrefl 0)]
      · rw [if_neg h0, if_pos (lt_of_le_of_ne (hM ▸ Real.sqrt_nonneg _) (Ne.symm h0))]
        rw [avgComplexPower_re]
    · rw [circuitRow_phase, avgComplexPower_eq]
  · intro crow hc qrow hq
    rcases mem_calculate_circuit_metrics.mp hc with ⟨st, hst, rfl⟩
    have hstA : st = "A" := by
      have : stationIds exDfSkew = ["A"] := by decide
      rw [this] at hst
      exact List.mem_singleton.mp hst
    subst hstA
    rcases List.mem_map.mp hq with ⟨st₂, hst₂, rfl⟩
    have hstA₂ : st₂ = "A" := by
      have : stationIds exDfSkew = ["A"] := by decide
      rw [this] at hst₂
      exact List.mem_singleton.mp hst₂
    subst hstA₂
    have hgrp : stationGroup exDfSkew "A" = exDfSkew := by decide
    have hpf : (qualityRow defaultStandards (stationGroup exDfSkew "A") "A").avg_power_factor
        = 1 := by
      show qmean ((stationGroup exDfSkew "A").map Row.power_factor) = 1
      rw [hgrp]
      norm_num [exDfSkew, qmean]
    have hre : (avgComplexPower (stationGroup exDfSkew "A")).re = 3 := by
      rw [avgComplexPower_re, hgrp]
      norm_num [exDfSkew, qmean]
    have habs : Complex.abs (avgComplexPower (stationGroup exDfSkew "A")) = 5 := by
      rw [abs_avgComplexPower, hgrp]
      have h3 : ((qmean (exDfSkew.map Row.real_power_mw) : ℚ) : ℝ) = 3 := by
        norm_num [exDfSkew, qmean]
      have h4 : ((qmean (exDfSkew.map Row.reactive_power_mvar) : ℚ) : ℝ) = 4 := by
        norm_num [exDfSkew, qmean]
      rw [h3, h4, show (3 : ℝ) ^ 2 + (4 : ℝ) ^ 2 = 5 ^ 2 by norm_num,
        Real.sqrt_sq (by norm_num : (0 : ℝ) ≤ 5)]
    rw [circuitRow_existing, habs, hre, if_pos (by norm_num : (5 : ℝ) > 0), hpf]
    intro heq
    have : (3 : ℝ) / 5 = ((1 : ℚ) : ℝ) := Option.some.inj heq
    norm_num at this

/-- Witness for C2 at a concrete one-station table. -/
theorem c2_existing_power_factor_witness :
    (circuitRow defaultStandards (stationGroup exDfSkew "A") "A").avg_real_power_mw =
      ((qmean ((stationGroup exDfSkew "A").map Row.real_power_mw) : ℚ) : ℝ) :=
  (c2_existing_power_factor exDfSkew defaultStandards _
    (mem_calculate_circuit_metrics.mpr ⟨"A", by decide, rfl⟩)).1.1

/-- C3: `first_fault` and `last_fault` are the minimum and maximum timestamp
over the union of the four fault-condition subsets of the station's rows; if
no row triggers any condition, both are absent (`none`), not zero and not an
error. -/
theorem c3_first_last_fault (df : List Row) (s : GridStandards) (row : FaultRow)
    (hrow : row ∈ perform_fault_analysis df s) :
    ((row.first_fault = none ∧ row.last_fault = none) ↔
      ∀ r ∈ stationGroup df row.station_id, anyFault s r = false) ∧
    (∀ t, row.first_fault = some t →
      (∃ r ∈ stationGroup df row.station_id, anyFault s r = true ∧ r.timestamp = t) ∧
      ∀ r ∈ stationGroup df row.station_id, anyFault s r = true → t ≤ r.timestamp) ∧
    (∀ t, row.last_fault = some t →
      (∃ r ∈ stationGroup df row.station_id, anyFault s r = true ∧ r.timestamp = t) ∧
      ∀ r ∈ stationGroup df row.station_id, anyFault s r = true → r.timestamp ≤ t) := by
  rcases List.mem_map.mp hrow with ⟨st, hst, rfl⟩
  show ((faultTimestamps s (stationGroup df st)).min? = none ∧
      (faultTimestamps s (stationGroup df st)).max? = none ↔ _) ∧ _ ∧ _
  set g := stationGroup df st with hg
  refine ⟨?_, ?_, ?_⟩
  · rw [List.min?_eq_none_iff, List.max?_eq_none_iff]
    constructor
    · rintro ⟨h, _⟩
      exact faultTimestamps_eq_nil_iff.mp h
    · intro h
      exact ⟨faultTimestamps_eq_nil_iff.mpr h, faultTimestamps_eq_nil_iff.mpr h⟩
  · intro t ht
    have ht' : (faultTimestamps s g).min? = some t := ht
    rw [min?_eq_some_iff_lin] at ht'
    refine ⟨mem_faultTimestamps.mp ht'.1, ?_⟩
    intro r hr hfault
    exact ht'.2 _ (mem_faultTimestamps.mpr ⟨r, hr, hfault, rfl⟩)
  · intro t ht
    have ht' : (faultTimestamps s g).max? = some t := ht
    rw [max?_eq_some_iff_lin] at ht'
    refine ⟨mem_faultTimestamps.mp ht'.1, ?_⟩
    intro r hr hfault
    exact ht'.2 _ (mem_faultTimestamps.mpr ⟨r, hr, hfault, rfl⟩)

/-- Witness for C3 at a concrete station with one voltage-sag sample. -/
theorem c3_first_last_fault_witness :
    ((faultRow defaultStandards (stationGroup exDfFault "A") "A").first_fault = none ∧
      (faultRow defaultStandards (stationGroup exDfFault "A") "A").last_fault = none ↔
      ∀ r ∈ stationGroup exDfFault
        "A", anyFault defaultStandards r = false) :=
  (c3_first_last_fault exDfFault defaultStandards _
    (List.mem_map.mpr ⟨"A", by decide, rfl⟩)).1

/-- C9: `first_fault` and `last_fault` are either both absent or both
present; they are present exactly when at least one of the four event counts
is positive, and whenever present, `first_fault ≤ last_fault`. -/
theorem c9_fault_window_invariants (df : List Row) (s : GridStandards) (row : FaultRow)
    (hrow : row ∈ perform_fault_analysis df s) :
    (row.first_fault = none ↔ row.last_fault = none) ∧
    (row.first_fault.isSome ↔
      0 < row.voltage_sag_events + row.voltage_swell_events + row.over_current_events +
        row.very_low_pf_events) ∧
    ∀ t u, row.first_fault = some t → row.last_fault = some u → t ≤ u := by
  rcases List.mem_map.mp hrow with ⟨st, hst, rfl⟩
  show ((faultTimestamps s (stationGroup df st)).min? = none ↔
      (faultTimestamps s (stationGroup df st)).max? = none) ∧ _ ∧ _
  set g := stationGroup df st with hg
  refine ⟨?_, ?_, ?_⟩
  · rw [List.min?_eq_none_iff, List.max?_eq_none_iff]
  · show ((faultTimestamps s g).min?).isSome ↔
      0 < (g.filter (isVoltageSag s)).length + (g.filter (isVoltageSwell s)).length +
        (g.filter (isOverCurrent s)).length + (g.filter (isVeryLowPf s)).length
    rw [← length_faultTimestamps, List.length_pos]
    constructor
    · intro hs
      intro hnil
      rw [Option.isSome_iff_exists] at hs
      obtain ⟨t, ht⟩ := hs
      rw [hnil] at ht
      cases ht
    · intro hne
      exact Option.ne_none_iff_isSome.mp (fun h => hne (List.min?_eq_none_iff.mp h))
  · intro t u ht hu
    have ht' : (faultTimestamps s g).min? = some t := ht
    have hu' : (faultTimestamps s g).max? = some u := hu
    rw [min?_eq_some_iff_lin] at ht'
    rw [max?_eq_some_iff_lin] at hu'
    exact ht'.2 _ hu'.1

/-- Witness for C9 at a concrete station with one voltage-sag sample. -/
theorem c9_fault_window_invariants_witness :
    ((faultRow defaultStandards (stationGroup exDfFault "A") "A").first_fault = none ↔
      (faultRow defaultStandards (stationGroup exDfFault "A") "A").last_fault = none) :=
  (c9_fault_window_invariants exDfFault defaultStandards _
    (List.mem_map.mpr ⟨"A", by decide, rfl⟩)).1

/-- C7: raising `current_max` never increases a station's
`over_current_events` count in the fault table. -/
theorem c7_over_current_monotone (df : List Row) (s₁ s₂ : GridStandards)
    (h : s₁.current_max ≤ s₂.current_max) (row₁ row₂ : FaultRow)
    (h₁ : row₁ ∈ perform_fault_analysis df s₁)
    (h₂ : row₂ ∈ perform_fault_analysis df s₂)
    (hst : row₁.station_id = row₂.station_id) :
    row₂.over_current_events ≤ row₁.over_current_events := by
  rcases List.mem_map.mp h₁ with ⟨st₁, hst₁, rfl⟩
  rcases List.mem_map.mp h₂ with ⟨st₂, hst₂, rfl⟩
  have hsame : st₁ = st₂ := hst
  subst hsame
  show ((stationGroup df st₁).filter (isOverCurrent s₂)).length ≤
    ((stationGroup df st₁).filter (isOverCurrent s₁)).length
  rw [← List.countP_eq_length_filter, ← List.countP_eq_length_filter]
  apply List.countP_mono_left
  intro r _ hr
  simp only [isOverCurrent, decide_eq_true_eq] at hr ⊢
  exact lt_of_le_of_lt h hr

/-- Witness for C7: the same station under the default standards and under
standards with `current_max` raised to 200. -/
theorem c7_over_current_monotone_witness :
    (faultRow exStandardsHighCurrent (stationGroup exDfTwo "B") "B").over_current_events ≤
      (faultRow defaultStandards (stationGroup exDfTwo "B") "B").over_current_events :=
  c7_over_current_monotone exDfTwo defaultStandards exStandardsHighCurrent (by decide) _ _
    (List.mem_map.mpr ⟨"B", by decide, rfl⟩) (List.mem_map.mpr ⟨"B", by decide, rfl⟩) rfl

theorem pctOf_nonneg (g : List Row) (p : Row → Bool) : 0 ≤ pctOf g p := by
  unfold pctOf
  positivity

theorem pctOf_le_100 {g : List Row} (p : Row → Bool) (h : g ≠ []) : pctOf g p ≤ 100 := by
  unfold pctOf
  have hl : 0 < (g.length : ℚ) := by exact_mod_cast List.length_pos.mpr h
  have hc : ((g.countP p : ℕ) : ℚ) ≤ ((g.length : ℕ) : ℚ) := by
    exact_mod_cast List.countP_le_length p
  have hdiv : ((g.countP p : ℕ) : ℚ) / ((g.length : ℕ) : ℚ) ≤ 1 := (div_le_one hl).mpr hc
  calc ((g.countP p : ℕ) : ℚ) / ((g.length : ℕ) : ℚ) * 100
      ≤ 1 * 100 := mul_le_mul_of_nonneg_right hdiv (by norm_num)
    _ = 100 := by norm_num

/-- C4: each compliance row reports the three percentages as fractions of the
station's own samples (voltage within the closed band, power factor at least
the minimum, current at most the maximum), all three lie in `[0, 100]`, and
the observed extrema are the min / max over the station's own columns. -/
theorem c4_compliance (df : List Row) (s : GridStandards) (row : ComplianceRow)
    (hrow : row ∈ compare_to_standards df s) :
    (row.voltage_within_pct =
        (((stationGroup df row.station_id).countP
            (fun r => s.voltage_min ≤ r.voltage_pu ∧ r.voltage_pu ≤ s.voltage_max) : ℚ) /
          ((stationGroup df row.station_id).length : ℚ)) * 100 ∧
      row.power_factor_within_pct =
        (((stationGroup df row.station_id).countP
            (fun r => s.power_factor_min ≤ r.power_factor) : ℚ) /
          ((stationGroup df row.station_id).length : ℚ)) * 100 ∧
      row.current_within_pct =
        (((stationGroup df row.station_id).countP
            (fun r => r.current_pu ≤ s.current_max) : ℚ) /
          ((stationGroup df row.station_id).length : ℚ)) * 100) ∧
    ((0 ≤ row.voltage_within_pct ∧ row.voltage_within_pct ≤ 100) ∧
      (0 ≤ row.power_factor_within_pct ∧ row.power_factor_within_pct ≤ 100) ∧
      (0 ≤ row.current_within_pct ∧ row.current_within_pct ≤ 100)) ∧
    ((∀ v, row.voltage_min_observed = some v →
        v ∈ (stationGroup df row.station_id).map Row.voltage_pu ∧
        ∀ x ∈ (stationGroup df row.station_id).map Row.voltage_pu, v ≤ x) ∧
      (∀ v, row.voltage_max_observed = some v →
        v ∈ (stationGroup df row.station_id).map Row.voltage_pu ∧
        ∀ x ∈ (stationGroup df row.station_id).map Row.voltage_pu, x ≤ v) ∧
      (∀ v, row.current_max_observed = some v →
        v ∈ (stationGroup df row.station_id).map Row.current_pu ∧
        ∀ x ∈ (stationGroup df row.station_id).map Row.current_pu, x ≤ v) ∧
      (∀ v, row.power_factor_min_observed = some v →
        v ∈ (stationGroup df row.station_id).map Row.power_factor ∧
        ∀ x ∈ (stationGroup df row.station_id).map Row.power_factor, v ≤ x) ∧
      row.voltage_min_observed.isSome ∧ row.voltage_max_observed.isSome ∧
      row.current_max_observed.isSome ∧ row.power_factor_min_observed.isSome) := by
  rcases List.mem_map.mp hrow with ⟨st, hst, rfl⟩
  show _ ∧ _ ∧ _
  have hne : stationGroup df st ≠ [] := stationGroup_ne_nil hst
  have hmapne : ∀ f : Row → ℚ, (stationGroup df st).map f ≠ [] := by
    intro f hnil
    exact hne (List.map_eq_nil_iff.mp hnil)
  refine ⟨⟨rfl, rfl, rfl⟩, ?_, ?_⟩
  · exact ⟨⟨pctOf_nonneg _ _, pctOf_le_100 _ hne⟩, ⟨pctOf_nonneg _ _, pctOf_le_100 _ hne⟩,
      ⟨pctOf_nonneg _ _, pctOf_le_100 _ hne⟩⟩
  · refine ⟨?_, ?_, ?_, ?_, ?_, ?_, ?_, ?_⟩
    · intro v hv
      exact min?_eq_some_iff_lin.mp hv
    · intro v hv
      exact max?_eq_some_iff_lin.mp hv
    · intro v hv
      exact max?_eq_some_iff_lin.mp hv
    · intro v hv
      exact min?_eq_some_iff_lin.mp hv
    · exact Option.ne_none_iff_isSome.mp
        (fun h => hmapne Row.voltage_pu (List.min?_eq_none_iff.mp h))
    · exact Option.ne_none_iff_isSome.mp
        (fun h => hmapne Row.voltage_pu (List.max?_eq_none_iff.mp h))
    · exact Option.ne_none_iff_isSome.mp
        (fun h => hmapne Row.current_pu (List.max?_eq_none_iff.mp h))
    · exact Option.ne_none_iff_isSome.mp
        (fun h => hmapne Row.power_factor (List.min?_eq_none_iff.mp h))

/-- Witness for C4 at a concrete two-station table. -/
theorem c4_compliance_witness :
    0 ≤ (complianceRow defaultStandards (stationGroup exDfTwo "A") "A").voltage_within_pct ∧
    (complianceRow defaultStandards (stationGroup exDfTwo "A") "A").voltage_within_pct ≤ 100 :=
  (c4_compliance exDfTwo defaultStandards _
    (List.mem_map.mpr ⟨"A", by decide, rfl⟩)).2.1.1

theorem qsampleStdOpt_eq_none {l : List ℚ} (h : l.length ≤ 1) : qsampleStdOpt l = none := by
  simp [qsampleStdOpt, rsampleStdOpt, h]

theorem qmeanOpt_isSome {l : List ℚ} (h : l ≠ []) : (qmeanOpt l).isSome := by
  simp [qmeanOpt, h]

theorem qmedianOpt_isSome {l : List ℚ} (h : l ≠ []) : (qmedianOpt l).isSome := by
  simp [qmedianOpt, h]

/-- C6: a station with exactly one sample reports all five sample standard
deviations as missing (`none`, not zero) while its means and medians are
defined; a station with zero rows produces no statistics row at all. -/
theorem c6_single_sample (df : List Row) (st : String) :
    (∀ row ∈ calculate_basic_statistics df, row.station_id = st →
      (stationGroup df st).length = 1 →
        (row.voltage_pu_std = none ∧ row.current_pu_std = none ∧
          row.real_power_mw_std = none ∧ row.reactive_power_mvar_std = none ∧
          row.power_factor_std = none) ∧
        (row.voltage_pu_mean.isSome ∧ row.voltage_pu_median.isSome ∧
          row.current_pu_mean.isSome ∧ row.current_pu_median.isSome ∧
          row.real_power_mw_mean.isSome ∧ row.real_power_mw_median.isSome ∧
          row.reactive_power_mvar_mean.isSome ∧ row.reactive_power_mvar_median.isSome ∧
          row.power_factor_mean.isSome ∧ row.power_factor_median.isSome)) ∧
    (stationGroup df st = [] →
      ∀ row ∈ calculate_basic_statistics df, row.station_id ≠ st) := by
  constructor
  · intro row hrow hid hlen
    rcases List.mem_map.mp hrow with ⟨st', hst', rfl⟩
    have hst'' : st' = st := hid
    subst hst''
    have hlen' : ∀ f : Row → ℚ, ((stationGroup df st').map f).length ≤ 1 := by
      intro f
      rw [List.length_map, hlen]
    have hne : ∀ f : Row → ℚ, (stationGroup df st').map f ≠ [] := by
      intro f hnil
      have := List.length_map (stationGroup df st') f ▸ congrArg List.length hnil
      rw [hlen] at this
      cases this
    exact ⟨⟨qsampleStdOpt_eq_none (hlen' _), qsampleStdOpt_eq_none (hlen' _),
      qsampleStdOpt_eq_none (hlen' _), qsampleStdOpt_eq_none (hlen' _),
      qsampleStdOpt_eq_none (hlen' _)⟩,
      qmeanOpt_isSome (hne _), qmedianOpt_isSome (hne _),
      qmeanOpt_isSome (hne _), qmedianOpt_isSome (hne _),
      qmeanOpt_isSome (hne _), qmedianOpt_isSome (hne _),
      qmeanOpt_isSome (hne _), qmedianOpt_isSome (hne _),
      qmeanOpt_isSome (hne _), qmedianOpt_isSome (hne _)⟩
  · intro hempty row hrow hid
    rcases List.mem_map.mp hrow with ⟨st', hst', rfl⟩
    have hst'' : st' = st := hid
    subst hst''
    exact stationGroup_ne_nil hst' hempty

/-- Witness for C6 at a concrete single-sample station. -/
theorem c6_single_sample_witness :
    (statRow (stationGroup exDfUnity "A") "A").voltage_pu_std = none ∧
    (statRow (stationGroup exDfUnity "A") "A").voltage_pu_mean.isSome :=
  ⟨((c6_single_sample exDfUnity "A").1 _ (List.mem_map.mpr ⟨"A", by decide, rfl⟩)
      rfl (by decide)).1.1,
    ((c6_single_sample exDfUnity "A").1 _ (List.mem_map.mpr ⟨"A", by decide, rfl⟩)
      rfl (by decide)).2.1⟩

theorem calculate_circuit_metrics_eq_map (df : List Row) (s : GridStandards) :
    calculate_circuit_metrics df s =
      (stationIds df).map (fun st => circuitRow s (stationGroup df st) st) := by
  unfold calculate_circuit_metrics
  have key : ∀ l : List String, (∀ st ∈ l, ¬(stationGroup df st).isEmpty = true) →
      (l.filterMap (fun st =>
        if (stationGroup df st).isEmpty then none
        else some (circuitRow s (stationGroup df st) st))) =
        l.map (fun st => circuitRow s (stationGroup df st) st) := by
    intro l
    induction l with
    | nil => intro _; rfl
    | cons a l ih =>
      intro h
      rw [List.filterMap_cons, List.map_cons, if_neg (h a (List.mem_cons_self a l)),
        ih (fun st hst => h st (List.mem_cons_of_mem a hst))]
  exact key _ (fun st hst h => stationGroup_ne_nil hst (List.isEmpty_iff.mp h))

/-- C8: every derived table (statistics, compliance, quality indices, circuit
metrics, faults) has exactly the distinct station identifiers of the input as
keys, in the grouping order — no station invented, none dropped — and each
station's partition preserves the input's relative row order (it is a sublist
of the input). -/
theorem c8_grouping_completeness (df : List Row) (s : GridStandards) (st : String) :
    ((calculate_basic_statistics df).map StatRow.station_id = stationIds df) ∧
    ((compare_to_standards df s).map ComplianceRow.station_id = stationIds df) ∧
    ((calculate_power_quality_indices df s).map QualityRow.station_id = stationIds df) ∧
    ((calculate_circuit_metrics df s).map CircuitRow.station_id = stationIds df) ∧
    ((perform_fault_analysis df s).map FaultRow.station_id = stationIds df) ∧
    (st ∈ stationIds df ↔ ∃ r ∈ df, r.station_id = st) ∧
    (stationGroup df st).Sublist df := by
  refine ⟨?_, ?_, ?_, ?_, ?_, mem_stationIds, List.filter_sublist df⟩
  · unfold calculate_basic_statistics
    rw [List.map_map]
    exact List.map_id _
  · unfold compare_to_standards
    rw [List.map_map]
    exact List.map_id _
  · unfold calculate_power_quality_indices
    rw [List.map_map]
    exact List.map_id _
  · rw [calculate_circuit_metrics_eq_map, List.map_map]
    exact List.map_id _
  · unfold perform_fault_analysis
    rw [List.map_map]
    exact List.map_id _

/-- Witness for C8 at a concrete two-station table. -/
theorem c8_grouping_completeness_witness :
    (perform_fault_analysis exDfTwo defaultStandards).map FaultRow.station_id =
      stationIds exDfTwo :=
  (c8_grouping_completeness exDfTwo defaultStandards "A").2.2.2.2.1

/-- C5: measurement ingestion fails with a `MalformedInputError` exactly when
required columns are absent or some timestamp is unparseable — no other
validation — and a successful load returns the measurement table sorted
ascending by timestamp (a permutation of the parsed records). -/
theorem c5_load_power_data (input : RawInput) :
    ((∃ e, load_power_data input = .error e) ↔
      input.hasRequiredColumns = false ∨ ∃ r ∈ input.records, r.timestamp = none) ∧
    ∀ out, load_power_data input = .ok out →
      sortedByTs out ∧ out.Perm (input.records.filterMap parseRecord) := by
  unfold load_power_data
  by_cases hcol : input.hasRequiredColumns = false
  · rw [if_pos hcol]
    refine ⟨⟨fun _ => Or.inl hcol, fun _ => ⟨.missingColumns, rfl⟩⟩, ?_⟩
    intro out hout
    cases hout
  · rw [if_neg hcol]
    by_cases hall : input.records.all (fun r => r.timestamp.isSome) = true
    · rw [if_pos hall]
      constructor
      · constructor
        · rintro ⟨e, he⟩
          cases he
        · rintro (h | ⟨r, hr, hnone⟩)
          · exact absurd h hcol
          · have := List.all_eq_true.mp hall r hr
            rw [hnone] at this
            cases this
      · intro out hout
        have hout' : sortByTimestamp (input.records.filterMap parseRecord) = out :=
          Except.ok.inj hout
        subst hout'
        constructor
        · have htot : IsTotal Row (fun a b => a.timestamp ≤ b.timestamp) :=
            ⟨fun a b => le_total _ _⟩
          have htrans : IsTrans Row (fun a b => a.timestamp ≤ b.timestamp) :=
            ⟨fun _ _ _ hab hbc => le_trans hab hbc⟩
          exact @List.sorted_insertionSort Row _ _ htot htrans _
        · exact List.perm_insertionSort _ _
    · rw [if_neg hall]
      constructor
      · constructor
        · intro _
          right
          simp only [List.all_eq_true, not_forall] at hall
          obtain ⟨r, hr, hns⟩ := hall
          exact ⟨r, hr, Option.not_isSome_iff_eq_none.mp hns⟩
        · intro _
          exact ⟨.unparseableTimestamp, rfl⟩
      · intro out hout
        cases hout

/-- Witness for C5 at a concrete raw input whose records arrive out of
timestamp order. -/
theorem c5_load_power_data_witness :
    load_power_data exRaw = Except.ok exLoaded ∧ sortedByTs exLoaded :=
  ⟨rfl, ((c5_load_power_data exRaw).2 exLoaded rfl).1⟩
